import Mathlib

/-!
Verification of the recommendation engine in `backend/utils/recommender.js`
(class `RecommendationEngine`), together with the data it reads from
`backend/models/Product.js` and `backend/models/User.js`.

The engine state is modelled as a pure snapshot:
* the MongoDB `Product` collection is a list (in natural / insertion order);
* the MongoDB `User` collection is a list of users with their raw
  `interactions` arrays;
* `this.productFeatures` (a JS `Map`) is an association list in insertion
  order, `this.userItemMatrix` likewise;
* `this.tfidf.documents` (the `natural` library's TfIdf state) is a list of
  documents, each document being its list of (stemmed, lowercased) tokens;
* the `natural` library's idf values (`1 + Math.log(N / (1 + docCount))`,
  computed in IEEE doubles, hence rational) are carried as a function
  `idf : String → ℚ` in the state.

JavaScript numbers are modelled exactly (as `ℚ`, or `ℝ` where
`Math.sqrt` forces irrational values); `Array.prototype.sort` and the
MongoDB sorts are modelled as the stable sort `List.insertionSort`
(JS sort is required to be stable; a sorted-by-comparator stable sort is
extensionally `insertionSort` of the corresponding total preorder).
Rejected promises / thrown exceptions are modelled with `Except Unit`;
`try { … } catch { … }` is `tryCatchE`.
-/

/-- JS `Map.prototype.get`: value of the first (unique) binding of `k`. -/
def mapGet {κ α : Type} [BEq κ] (m : List (κ × α)) (k : κ) : Option α :=
  match m with
  | [] => none
  | (k', v) :: rest => if k' == k then some v else mapGet rest k

/-- JS `Map.prototype.set`: update the binding in place if the key is
present (keeping its position), otherwise append a new binding. -/
def mapSet {κ α : Type} [BEq κ] (m : List (κ × α)) (k : κ) (v : α) : List (κ × α) :=
  match m with
  | [] => [(k, v)]
  | (k', v') :: rest => if k' == k then (k, v) :: rest else (k', v') :: mapSet rest k v

/-- A catalog item, with the fields of `productSchema` that the engine
reads (`product_id`, `category`, `subcategory`, `price`, `rating`,
`view_count`, `like_count`, `purchase_count`, `is_featured`). -/
structure Product where
  product_id : ℕ
  category : String
  subcategory : String
  price : ℚ
  rating : ℚ
  view_count : ℕ
  like_count : ℕ
  purchase_count : ℕ
  is_featured : Bool
deriving DecidableEq, Repr

/-- An entry of `this.productFeatures` as stored by `buildProductFeatures`. -/
structure Features where
  category : String
  subcategory : String
  price : ℚ
  rating : ℚ
  is_featured : Bool
  is_on_sale : Bool
  manufacturer : String
  textIndex : ℕ
deriving DecidableEq, Repr

/-- One element of a user's `interactions` array (`userSchema`). -/
structure Interaction where
  productId : ℕ
  type : String
  timestamp : ℤ
  rating : Option ℚ
deriving DecidableEq, Repr

/-- A document of the `User` collection, restricted to what the engine reads. -/
structure DBUser where
  id : String
  interactions : List Interaction
deriving DecidableEq, Repr

/-- A recommendation record as returned by the engine: the spread product
document plus `similarity_score` and `recommendation_type`; hybrid entries
additionally carry `combined_score`. -/
structure Recommendation where
  product : Product
  similarity_score : ℝ
  recommendation_type : String
  combined_score : Option ℝ := none

/-- The engine snapshot: databases plus the in-memory state of the
`RecommendationEngine` singleton. -/
structure Engine where
  catalog : List Product
  users : List DBUser
  docs : List (List String)
  idf : String → ℚ
  productFeatures : List (ℕ × Features)
  userItemMatrix : List (String × List (ℕ × ℚ))

/-- `getInteractionWeight`: `{view: 1, like: 3, cart_add: 5, purchase: 10}[type] || 1`. -/
def getInteractionWeight (type : String) : ℚ :=
  if type = "view" then 1
  else if type = "like" then 3
  else if type = "cart_add" then 5
  else if type = "purchase" then 10
  else 1

/-- The `enum` of `userSchema.interactions.type`; mongoose validation of
`user.save()` fails unless the type is one of these. -/
def interactionTypeOk (type : String) : Bool :=
  type == "view" || type == "like" || type == "purchase" || type == "cart_add"

/-- Validation run by mongoose on `user.save()` inside `addInteraction`:
the interaction type must be in the enum and a present rating must be in
`[1, 5]` (`min: 1, max: 5`). -/
def interactionValid (type : String) (rating : Option ℚ) : Bool :=
  interactionTypeOk type &&
    (match rating with
     | none => true
     | some r => decide (1 ≤ r) && decide (r ≤ 5))

/-- The call `this.tfidf.tfidf(i, d)` of `calculateProductSimilarity`,
where `i` and `d` are document indices (numbers).  In the `natural`
library, `TfIdf.prototype.tfidf(terms, d)` with a non-array `terms`
tokenizes `String(terms).toLowerCase()` — for a number `i` this is the
single token `String(i)` — and returns `tf(term, documents[d]) * idf(term)`
where `tf` is the term's count in document `d`.  The idf values are taken
from the engine state. -/
def tfidfScore (e : Engine) (i d : ℕ) : ℚ :=
  (((e.docs.getD d []).count (toString i) : ℚ)) * e.idf (toString i)

/-- `calculateProductSimilarity(productId1, productId2)`: returns `0` when
either id is missing from `this.productFeatures`; otherwise the sum of the
text term (`this.tfidf.tfidf(idx1, idx2) * 0.4`), the category terms
(`0.3`, plus `0.1` for the subcategory, only when the categories match),
the price-closeness term and the rating-closeness term, capped by
`Math.min(similarity, 1)`. -/
def calculateProductSimilarity (e : Engine) (productId1 productId2 : ℕ) : ℚ :=
  match mapGet e.productFeatures productId1, mapGet e.productFeatures productId2 with
  | some features1, some features2 =>
    let textSimilarity := tfidfScore e features1.textIndex features2.textIndex
    let categoryPart : ℚ :=
      if features1.category = features2.category then
        (if features1.subcategory = features2.subcategory then 0.3 + 0.1 else 0.3)
      else 0
    let priceDiff := |features1.price - features2.price|
    let maxPrice := max features1.price features2.price
    let priceSimilarity : ℚ := if 0 < maxPrice then 1 - priceDiff / maxPrice else 1
    let ratingSimilarity : ℚ := 1 - |features1.rating - features2.rating| / 5
    min (textSimilarity * 0.4 + categoryPart + priceSimilarity * 0.1 + ratingSimilarity * 0.1) 1
  | _, _ => 0

/-- Comparator of `getPopularProducts`-style fallback query
`.sort({ rating: -1, view_count: -1, is_featured: -1 })`: `a` ranks
strictly above `b`. -/
def popAbove (a b : Product) : Prop :=
  b.rating < a.rating ∨
    (b.rating = a.rating ∧
      (b.view_count < a.view_count ∨
        (b.view_count = a.view_count ∧ b.is_featured < a.is_featured)))

instance : DecidableRel popAbove := fun a b => by unfold popAbove; infer_instance

/-- Stable-sort relation for the fallback ordering: `a` may precede `b`
unless `b` ranks strictly above `a`. -/
def popGE (a b : Product) : Prop := ¬ popAbove b a

instance : DecidableRel popGE := fun a b => by unfold popGE; infer_instance

/-- `getFallbackRecommendations(limit)`: the whole catalog sorted by
`(rating desc, view_count desc, is_featured desc)`, truncated to `limit`,
each product tagged `fallback` with score `rating / 5`. -/
noncomputable def getFallbackRecommendations (e : Engine) (limit : ℕ) : List Recommendation :=
  ((List.insertionSort popGE e.catalog).take limit).map (fun product =>
    { product := product
      similarity_score := ((product.rating : ℝ) / 5)
      recommendation_type := "fallback" })

/-- Stable-sort relation of `.sort((a, b) => b.similarity - a.similarity)`
on `{product, similarity}` pairs. -/
def simGE (a b : Product × ℚ) : Prop := b.2 ≤ a.2

instance : DecidableRel simGE := fun a b => by unfold simGE; infer_instance

/-- Stable-sort relation of the two chained interaction sorts in
`getContentBasedRecommendations`, timestamp pass:
`.sort((a, b) => new Date(b.timestamp) - new Date(a.timestamp))`. -/
def interTimeGE (a b : Interaction) : Prop := b.timestamp ≤ a.timestamp

instance : DecidableRel interTimeGE := fun a b => by unfold interTimeGE; infer_instance

/-- Stable-sort relation of the second interaction sort, weight pass:
`.sort((a, b) => getInteractionWeight(b.type) - getInteractionWeight(a.type))`. -/
def interWeightGE (a b : Interaction) : Prop :=
  getInteractionWeight b.type ≤ getInteractionWeight a.type

instance : DecidableRel interWeightGE := fun a b => by unfold interWeightGE; infer_instance

/-- Target-product selection of `getContentBasedRecommendations`: if a
(truthy) `productId` is given, look it up in the catalog; otherwise load
the user, return nothing (→ fallback) when the user is missing or has no
interactions, and otherwise look up the product of the top interaction
after sorting by timestamp descending and then (stably) by weight
descending. -/
def contentTarget (e : Engine) (userId : String) (productId : Option ℕ) : Option Product :=
  if productId.getD 0 ≠ 0 then
    e.catalog.find? (fun p => p.product_id == productId.getD 0)
  else
    match e.users.find? (fun u => u.id == userId) with
    | none => none
    | some user =>
      if user.interactions.isEmpty then none
      else
        match List.insertionSort interWeightGE
            (List.insertionSort interTimeGE user.interactions) with
        | [] => none
        | top :: _ => e.catalog.find? (fun p => p.product_id == top.productId)

/-- `getContentBasedRecommendations(userId, productId, limit)`: every path
that fails to produce an indexed target product returns the fallback list;
otherwise all other catalog products are scored with
`calculateProductSimilarity`, those with similarity `> 0` are kept, sorted
descending by similarity (stable), truncated to `limit` and tagged
`content_based`. -/
noncomputable def getContentBasedRecommendations (e : Engine) (userId : String)
    (productId : Option ℕ) (limit : ℕ) : List Recommendation :=
  match contentTarget e userId productId with
  | none => getFallbackRecommendations e limit
  | some target =>
    match mapGet e.productFeatures target.product_id with
    | none => getFallbackRecommendations e limit
    | some _ =>
      let allProducts := e.catalog.filter (fun p => !(p.product_id == target.product_id))
      let similarities := allProducts.filterMap (fun p =>
        let similarity := calculateProductSimilarity e target.product_id p.product_id
        if 0 < similarity then some (p, similarity) else none)
      ((List.insertionSort simGE similarities).take limit).map (fun item =>
        { product := item.1
          similarity_score := ((item.2 : ℝ))
          recommendation_type := "content_based" })

/-- `calculateUserSimilarity(interactions1, interactions2)`: cosine
similarity restricted to the common items.  `commonItems` collects the
keys of the first map that the second map also has; with no common item
the result is `0`; otherwise dot product and the two squared norms are
accumulated over the common items (`get(productId) || 0`), returning `0`
when a norm is `0` and `dot / (Math.sqrt(norm1) * Math.sqrt(norm2))`
otherwise. -/
noncomputable def calculateUserSimilarity (interactions1 interactions2 : List (ℕ × ℚ)) : ℝ :=
  let commonItems :=
    ((interactions1.map Prod.fst).filter (fun k => (mapGet interactions2 k).isSome)).dedup
  if commonItems.isEmpty then 0
  else
    let dotProduct : ℚ := commonItems.foldl
      (fun s k => s + ((mapGet interactions1 k).getD 0) * ((mapGet interactions2 k).getD 0)) 0
    let norm1 : ℚ := commonItems.foldl
      (fun s k => s + ((mapGet interactions1 k).getD 0) * ((mapGet interactions1 k).getD 0)) 0
    let norm2 : ℚ := commonItems.foldl
      (fun s k => s + ((mapGet interactions2 k).getD 0) * ((mapGet interactions2 k).getD 0)) 0
    if norm1 = 0 ∨ norm2 = 0 then 0
    else (dotProduct : ℝ) / (Real.sqrt (norm1 : ℝ) * Real.sqrt (norm2 : ℝ))

/-- Stable-sort relation of `.sort((a, b) => b.similarity - a.similarity)`
on `{userId, similarity}` pairs. -/
def userSimGE (a b : String × ℝ) : Prop := b.2 ≤ a.2

noncomputable instance : DecidableRel userSimGE := fun a b => by
  unfold userSimGE; infer_instance

/-- `findSimilarUsers(userId, limit)`: empty when the user has no matrix
row; otherwise every other user with a non-empty row and similarity above
the `0.1` threshold is collected in matrix iteration order, sorted
descending by similarity (stable) and truncated to `limit`. -/
noncomputable def findSimilarUsers (e : Engine) (userId : String) (limit : ℕ) :
    List (String × ℝ) :=
  match mapGet e.userItemMatrix userId with
  | none => []
  | some userInteractions =>
    let similarities := e.userItemMatrix.foldl (fun acc entry =>
      if entry.1 == userId || entry.2.isEmpty then acc
      else
        let similarity := calculateUserSimilarity userInteractions entry.2
        if (0.1 : ℝ) < similarity then acc ++ [(entry.1, similarity)] else acc) []
    (List.insertionSort userSimGE similarities).take limit

/-- The aggregation loop of `getCollaborativeRecommendations`: for each
similar user (in order), for each item of that user's row (in order) that
the target user has no entry for, add `weight * similarity` into the
`recommendations` map. -/
noncomputable def collabScores (e : Engine) (userInteractions : List (ℕ × ℚ))
    (similarUsers : List (String × ℝ)) : List (ℕ × ℝ) :=
  similarUsers.foldl (fun recommendations su =>
    match mapGet e.userItemMatrix su.1 with
    | none => recommendations
    | some similarUserInteractions =>
      similarUserInteractions.foldl (fun recommendations entry =>
        if (mapGet userInteractions entry.1).isSome then recommendations
        else mapSet recommendations entry.1
          (((mapGet recommendations entry.1).getD 0) + (entry.2 : ℝ) * su.2))
        recommendations) []

/-- Stable-sort relation of `.sort((a, b) => b[1] - a[1])` on
`[productId, score]` entries. -/
def collabGE (a b : ℕ × ℝ) : Prop := b.2 ≤ a.2

noncomputable instance : DecidableRel collabGE := fun a b => by
  unfold collabGE; infer_instance

/-- The product-detail step of `getCollaborativeRecommendations`: each
scored id is resolved against the fetched products; a missing product
makes `product.toObject()` throw (`product` is `undefined`), modelled as
`Except.error`. -/
noncomputable def fetchProducts (e : Engine) :
    List (ℕ × ℝ) → Except Unit (List Recommendation)
  | [] => .ok []
  | entry :: rest =>
    match e.catalog.find? (fun p => p.product_id == entry.1) with
    | some product =>
      (fetchProducts e rest).map (fun recs =>
        { product := product
          similarity_score := entry.2
          recommendation_type := "collaborative" } :: recs)
    | none => .error ()

/-- Body of the `try` block of `getCollaborativeRecommendations(userId, limit)`:
fallback when the user's row is missing or empty or no similar user passes
the threshold; otherwise aggregate neighbour scores, sort descending,
truncate to `limit`, resolve products (which can throw) and drop records
with a falsy (zero) `product_id`. -/
noncomputable def collabCore (e : Engine) (userId : String) (limit : ℕ) :
    Except Unit (List Recommendation) :=
  match mapGet e.userItemMatrix userId with
  | none => .ok (getFallbackRecommendations e limit)
  | some userInteractions =>
    if userInteractions.isEmpty then .ok (getFallbackRecommendations e limit)
    else
      let similarUsers := findSimilarUsers e userId 10
      if similarUsers.isEmpty then .ok (getFallbackRecommendations e limit)
      else
        let recommendations := collabScores e userInteractions similarUsers
        let sortedRecommendations := (List.insertionSort collabGE recommendations).take limit
        (fetchProducts e sortedRecommendations).map (fun recs =>
          recs.filter (fun item => !(item.product.product_id == 0)))

/-- `try { m } catch (err) { h(err) }` for a computation modelled in `Except`. -/
def tryCatchE {α : Type} (m : Except Unit α) (h : Unit → Except Unit α) : Except Unit α :=
  match m with
  | .ok a => .ok a
  | .error err => h err

/-- `getCollaborativeRecommendations` with its `try`/`catch`, as seen by a
caller that could still observe a thrown exception. -/
noncomputable def getCollaborativeRecommendationsE (e : Engine) (userId : String)
    (limit : ℕ) : Except Unit (List Recommendation) :=
  tryCatchE (collabCore e userId limit)
    (fun _ => .ok (getFallbackRecommendations e limit))

/-- `getCollaborativeRecommendations(userId, limit)` as the total function
it is after the `catch` (the `.error` branch is unreachable). -/
noncomputable def getCollaborativeRecommendations (e : Engine) (userId : String)
    (limit : ℕ) : List Recommendation :=
  match getCollaborativeRecommendationsE e userId limit with
  | .ok recs => recs
  | .error _ => []

/-- The map-merging step of `getHybridRecommendations`: content entries
are inserted with `combined_score = similarity_score * 0.6` and type
`hybrid`; collaborative entries add `similarity_score * 0.4` onto an
existing entry or are inserted with `combined_score = similarity_score * 0.4`. -/
noncomputable def hybridMerge (contentRecs collabRecs : List Recommendation) :
    List (ℕ × Recommendation) :=
  let combinedRecs := contentRecs.foldl (fun m rec =>
    mapSet m rec.product.product_id
      { rec with
        combined_score := some (rec.similarity_score * 0.6)
        recommendation_type := "hybrid" }) []
  collabRecs.foldl (fun m rec =>
    match mapGet m rec.product.product_id with
    | some existing =>
      mapSet m rec.product.product_id
        { existing with
          combined_score := some ((existing.combined_score.getD 0) + rec.similarity_score * 0.4) }
    | none =>
      mapSet m rec.product.product_id
        { rec with
          combined_score := some (rec.similarity_score * 0.4)
          recommendation_type := "hybrid" }) combinedRecs

/-- Stable-sort relation of `.sort((a, b) => b.combined_score - a.combined_score)`
(every merged entry carries a `combined_score`). -/
def hybGE (a b : Recommendation) : Prop :=
  b.combined_score.getD 0 ≤ a.combined_score.getD 0

noncomputable instance : DecidableRel hybGE := fun a b => by
  unfold hybGE; infer_instance

/-- `getHybridRecommendations(userId, limit)`: both sources are queried
with limit `Math.ceil(limit * 0.7)`, merged, sorted descending by
`combined_score` (stable, in map insertion order) and truncated to
`limit`. -/
noncomputable def getHybridRecommendations (e : Engine) (userId : String)
    (limit : ℕ) : List Recommendation :=
  let subLimit := (7 * limit + 9) / 10
  let contentRecs := getContentBasedRecommendations e userId none subLimit
  let collabRecs := getCollaborativeRecommendations e userId subLimit
  (List.insertionSort hybGE ((hybridMerge contentRecs collabRecs).map Prod.snd)).take limit

/-- `getContentBasedRecommendations` as seen through its `try`/`catch`:
in this pure model the body has no failure source, so the core is `ok`. -/
noncomputable def getContentBasedRecommendationsE (e : Engine) (userId : String)
    (productId : Option ℕ) (limit : ℕ) : Except Unit (List Recommendation) :=
  tryCatchE (.ok (getContentBasedRecommendations e userId productId limit))
    (fun _ => .ok (getFallbackRecommendations e limit))

/-- `getHybridRecommendations` as seen through its `try`/`catch`: its two
sub-calls are the already-caught public operations, so the core is `ok`. -/
noncomputable def getHybridRecommendationsE (e : Engine) (userId : String)
    (limit : ℕ) : Except Unit (List Recommendation) :=
  tryCatchE (.ok (getHybridRecommendations e userId limit))
    (fun _ => .ok (getFallbackRecommendations e limit))

/-- Update of the first catalog product with the given id by the
`incrementViewCount` / `incrementLikeCount` / `incrementPurchaseCount`
switch of `updateUserInteraction` (no case increments for `cart_add`). -/
def bumpProductCounts (l : List Product) (productId : ℕ) (type : String) : List Product :=
  match l with
  | [] => []
  | p :: rest =>
    if p.product_id == productId then
      (if type = "view" then { p with view_count := p.view_count + 1 }
       else if type = "like" then { p with like_count := p.like_count + 1 }
       else if type = "purchase" then { p with purchase_count := p.purchase_count + 1 }
       else p) :: rest
    else p :: bumpProductCounts rest productId type

/-- Append the new interaction to the first user with the given id
(`user.addInteraction` persisted by `user.save()`). -/
def appendInteraction (l : List DBUser) (userId : String) (i : Interaction) : List DBUser :=
  match l with
  | [] => []
  | u :: rest =>
    if u.id == userId then { u with interactions := u.interactions ++ [i] } :: rest
    else u :: appendInteraction rest userId i

/-- Body of the `try` block of `updateUserInteraction(userId, productId,
interactionType, rating)`: nothing happens when the user is missing;
otherwise `user.addInteraction` saves the event (throwing a mongoose
validation error — modelled as `Except.error` — when `interactionValid`
fails, before any other mutation), then the in-memory matrix row is
increased by `getInteractionWeight(interactionType)` and the product's
counter is incremented. -/
def updateCore (e : Engine) (userId : String) (productId : ℕ) (interactionType : String)
    (rating : Option ℚ) (now : ℤ) : Except Unit Engine :=
  match e.users.find? (fun u => u.id == userId) with
  | none => .ok e
  | some _ =>
    if interactionValid interactionType rating then
      let users' := appendInteraction e.users userId
        { productId := productId, type := interactionType, timestamp := now, rating := rating }
      let userInteractions := (mapGet e.userItemMatrix userId).getD []
      let weight := getInteractionWeight interactionType
      let currentWeight := (mapGet userInteractions productId).getD 0
      let userInteractions' := mapSet userInteractions productId (currentWeight + weight)
      let matrix' := mapSet e.userItemMatrix userId userInteractions'
      let catalog' := bumpProductCounts e.catalog productId interactionType
      .ok { e with users := users', userItemMatrix := matrix', catalog := catalog' }
    else .error ()

/-- `updateUserInteraction` with its `try`/`catch`: a caught error leaves
every piece of state untouched and the function returns normally. -/
def updateUserInteractionE (e : Engine) (userId : String) (productId : ℕ)
    (interactionType : String) (rating : Option ℚ) (now : ℤ) : Except Unit Engine :=
  tryCatchE (updateCore e userId productId interactionType rating now) (fun _ => .ok e)

/-- `updateUserInteraction` as the total state transformer it is after the
`catch` (the `.error` branch is unreachable). -/
def updateUserInteraction (e : Engine) (userId : String) (productId : ℕ)
    (interactionType : String) (rating : Option ℚ) (now : ℤ) : Engine :=
  match updateUserInteractionE e userId productId interactionType rating now with
  | .ok e' => e'
  | .error _ => e

/-- The idf formula of the `natural` library: `1 + Math.log(N / (1 + docCount))`
where `N` is the number of documents and `docCount` the number of
documents containing the term.  Used to justify the concrete `idf` values
carried by the engine snapshots below. -/
noncomputable def naturalIdf (numDocs docCount : ℕ) : ℝ :=
  1 + Real.log ((numDocs : ℝ) / (1 + (docCount : ℝ)))

/-- Modelled from the spec (section 4.2 and glossary): the text term the
specification prescribes — cosine similarity of the two items' TF-IDF text
vectors, i.e. the dot product of the two vectors of per-term
`tf * idf` weights over the combined vocabulary, divided by the product of
their magnitudes (taken as `0` when a vector is zero). -/
noncomputable def specTextCosine (e : Engine) (i d : ℕ) : ℝ :=
  let di := e.docs.getD i []
  let dj := e.docs.getD d []
  let vocab := (di ++ dj).dedup
  let vi := vocab.map (fun t => (((di.count t : ℚ) * e.idf t : ℚ) : ℝ))
  let vj := vocab.map (fun t => (((dj.count t : ℚ) * e.idf t : ℚ) : ℝ))
  let dotProduct := (List.zipWith (fun x y => x * y) vi vj).sum
  let norm1 := (vi.map (fun x => x * x)).sum
  let norm2 := (vj.map (fun x => x * x)).sum
  if norm1 = 0 ∨ norm2 = 0 then 0
  else dotProduct / (Real.sqrt norm1 * Real.sqrt norm2)

/-- Modelled from the spec (section 4.2): item similarity as the
specification states it — the weighted sum of text cosine similarity
(0.40), category equality (0.30), subcategory equality counted only when
the category matched (0.10), price closeness (0.10) and rating closeness
(0.10), with the total clamped to `[0, 1]`. -/
noncomputable def specSimilarity (e : Engine) (id1 id2 : ℕ) : ℝ :=
  match mapGet e.productFeatures id1, mapGet e.productFeatures id2 with
  | some f1, some f2 =>
    let text := specTextCosine e f1.textIndex f2.textIndex
    let categoryPart : ℚ :=
      if f1.category = f2.category then
        (if f1.subcategory = f2.subcategory then 0.3 + 0.1 else 0.3)
      else 0
    let priceSimilarity : ℚ :=
      if 0 < max f1.price f2.price then
        1 - |f1.price - f2.price| / max f1.price f2.price
      else 1
    let ratingSimilarity : ℚ := 1 - |f1.rating - f2.rating| / 5
    max 0 (min (text * 0.4 + ((categoryPart + priceSimilarity * 0.1 + ratingSimilarity * 0.1 : ℚ) : ℝ)) 1)
  | _, _ => 0

/-- Shorthand for building a catalog product. -/
def mkProduct (pid : ℕ) (cat sub : String) (price rating : ℚ) (vc : ℕ) : Product :=
  { product_id := pid, category := cat, subcategory := sub, price := price,
    rating := rating, view_count := vc, like_count := 0, purchase_count := 0,
    is_featured := false }

/-- Features of a product as `buildProductFeatures` copies them. -/
def mkFeatures (p : Product) (idx : ℕ) : Features :=
  { category := p.category, subcategory := p.subcategory, price := p.price,
    rating := p.rating, is_featured := p.is_featured, is_on_sale := false,
    manufacturer := "m", textIndex := idx }

/-- A one-product snapshot with a single interaction-free user. -/
def engC1 : Engine :=
  { catalog := [mkProduct 1 "c" "s" 10 4 0]
    users := [{ id := "A", interactions := [] }]
    docs := [["alpha"]]
    idf := fun _ => 1
    productFeatures := [(1, mkFeatures (mkProduct 1 "c" "s" 10 4 0) 0)]
    userItemMatrix := [("A", [])] }

/-- A five-product snapshot (ratings 5,4,3,2,1) with one user that has no
interactions and an empty matrix row. -/
def engC2 : Engine :=
  { catalog := [mkProduct 1 "c" "s" 10 5 0, mkProduct 2 "c" "s" 10 4 0,
                mkProduct 3 "c" "s" 10 3 0, mkProduct 4 "c" "s" 10 2 0,
                mkProduct 5 "c" "s" 10 1 0]
    users := [{ id := "A", interactions := [] }]
    docs := [["d1"], ["d2"], ["d3"], ["d4"], ["d5"]]
    idf := fun _ => 1
    productFeatures :=
      [(1, mkFeatures (mkProduct 1 "c" "s" 10 5 0) 0),
       (2, mkFeatures (mkProduct 2 "c" "s" 10 4 0) 1),
       (3, mkFeatures (mkProduct 3 "c" "s" 10 3 0) 2),
       (4, mkFeatures (mkProduct 4 "c" "s" 10 2 0) 3),
       (5, mkFeatures (mkProduct 5 "c" "s" 10 1 0) 4)]
    userItemMatrix := [("A", [])] }

/-- A three-product snapshot where products 1 and 2 have the same text
(token list `["alpha"]`) and product 3 has text `["beta"]`.  With three
documents and `"alpha"` occurring in two of them, the library's idf for
`"alpha"` is `1 + Math.log(3 / 3) = 1` exactly; no other term's idf is
ever multiplied by a non-zero tf in the statements below, so the snapshot
carries the constant-1 idf table. -/
def engC3 : Engine :=
  { catalog := [mkProduct 1 "a" "s" 10 4 0, mkProduct 2 "b" "t" 10 4 0,
                mkProduct 3 "c" "u" 10 4 0]
    users := []
    docs := [["alpha"], ["alpha"], ["beta"]]
    idf := fun _ => 1
    productFeatures :=
      [(1, mkFeatures (mkProduct 1 "a" "s" 10 4 0) 0),
       (2, mkFeatures (mkProduct 2 "b" "t" 10 4 0) 1),
       (3, mkFeatures (mkProduct 3 "c" "u" 10 4 0) 2)]
    userItemMatrix := [] }

/-- A two-product snapshot where the text of product 2 contains the token
`"0"` (e.g. a description mentioning the number 0).  With two documents
and `"0"` occurring in one of them, the library's idf for `"0"` is
`1 + Math.log(2 / 2) = 1` exactly; no other term's idf is ever multiplied
by a non-zero tf in the statements below. -/
def engC6 : Engine :=
  { catalog := [mkProduct 1 "a" "s" 10 4 0, mkProduct 2 "b" "t" 10 4 0]
    users := []
    docs := [["alpha"], ["beta", "0"]]
    idf := fun _ => 1
    productFeatures :=
      [(1, mkFeatures (mkProduct 1 "a" "s" 10 4 0) 0),
       (2, mkFeatures (mkProduct 2 "b" "t" 10 4 0) 1)]
    userItemMatrix := [] }

/-- The spec's collaborative scenario: user A purchased item 1 (weight 10),
user B liked item 1 (weight 3) and purchased item 2 (weight 10). -/
def engC7 : Engine :=
  { catalog := [mkProduct 1 "c" "s" 10 4 0, mkProduct 2 "c" "s" 12 5 0]
    users :=
      [{ id := "A", interactions := [{ productId := 1, type := "purchase", timestamp := 0, rating := none }] },
       { id := "B", interactions :=
          [{ productId := 1, type := "like", timestamp := 1, rating := none },
           { productId := 2, type := "purchase", timestamp := 2, rating := none }] }]
    docs := [["d1"], ["d2"]]
    idf := fun _ => 1
    productFeatures :=
      [(1, mkFeatures (mkProduct 1 "c" "s" 10 4 0) 0),
       (2, mkFeatures (mkProduct 2 "c" "s" 12 5 0) 1)]
    userItemMatrix := [("A", [(1, 10)]), ("B", [(1, 3), (2, 10)])] }

/-- A snapshot with a single user who purchased the only (hence top-rated)
product; there is no other user to be similar to. -/
def engC8 : Engine :=
  { catalog := [mkProduct 1 "c" "s" 10 5 0]
    users := [{ id := "A", interactions := [{ productId := 1, type := "purchase", timestamp := 0, rating := none }] }]
    docs := [["d1"]]
    idf := fun _ => 1
    productFeatures := [(1, mkFeatures (mkProduct 1 "c" "s" 10 5 0) 0)]
    userItemMatrix := [("A", [(1, 10)])] }

/-- A three-product snapshot whose catalog enumerates product 5 before
product 3; both are equally similar to the anchor product 1. -/
def engC9 : Engine :=
  { catalog := [mkProduct 1 "c" "s" 10 4 0, mkProduct 5 "c" "s" 10 4 0,
                mkProduct 3 "c" "s" 10 4 0]
    users := []
    docs := [["d1"], ["d2"], ["d3"]]
    idf := fun _ => 1
    productFeatures :=
      [(1, mkFeatures (mkProduct 1 "c" "s" 10 4 0) 0),
       (5, mkFeatures (mkProduct 5 "c" "s" 10 4 0) 1),
       (3, mkFeatures (mkProduct 3 "c" "s" 10 4 0) 2)]
    userItemMatrix := [] }

/-- Content-entry transformation of `hybridMerge`. -/
noncomputable def contentize (r : Recommendation) : Recommendation :=
  { r with recommendation_type := "hybrid"
           combined_score := some (r.similarity_score * 0.6) }

/-- Transformation of an item present in both lists of `hybridMerge`. -/
noncomputable def hybridize (r : Recommendation) : Recommendation :=
  { r with recommendation_type := "hybrid"
           combined_score := some (r.similarity_score * 0.6 + r.similarity_score * 0.4) }

/-- Descending order of `similarity_score`, the ranking order the
recommendation lists are sorted in. -/
def scoreDesc (a b : Recommendation) : Prop := b.similarity_score ≤ a.similarity_score

/-- The fallback ordering seen as a lexicographic key. -/
def popKey (p : Product) : ℚ ×ₗ ℕ ×ₗ Bool :=
  toLex (p.rating, toLex (p.view_count, p.is_featured))

theorem popAbove_iff {a b : Product} : popAbove a b ↔ popKey b < popKey a := by
  unfold popAbove popKey
  rw [Prod.Lex.lt_iff, Prod.Lex.lt_iff]

theorem popGE_iff {a b : Product} : popGE a b ↔ popKey b ≤ popKey a := by
  rw [popGE, popAbove_iff, not_lt]

instance : IsTotal Product popGE :=
  ⟨fun a b => by rw [popGE_iff, popGE_iff]; exact (le_total _ _).symm⟩

instance : IsTrans Product popGE :=
  ⟨fun a b c hab hbc => by
    rw [popGE_iff] at hab hbc ⊢
    exact le_trans hbc hab⟩

theorem popGE_rating {a b : Product} (h : popGE a b) : b.rating ≤ a.rating := by
  rw [popGE_iff] at h
  rcases (Prod.Lex.le_iff _ _).mp h with h' | ⟨h', _⟩
  · exact le_of_lt h'
  · exact le_of_eq h'

instance : IsTotal (Product × ℚ) simGE := ⟨fun a b => le_total b.2 a.2⟩

instance : IsTrans (Product × ℚ) simGE :=
  ⟨fun _ _ _ hab hbc => le_trans hbc hab⟩

instance : IsTotal (ℕ × ℝ) collabGE := ⟨fun a b => le_total b.2 a.2⟩

instance : IsTrans (ℕ × ℝ) collabGE :=
  ⟨fun _ _ _ hab hbc => le_trans hbc hab⟩

instance : IsTotal (String × ℝ) userSimGE := ⟨fun a b => le_total b.2 a.2⟩

instance : IsTrans (String × ℝ) userSimGE :=
  ⟨fun _ _ _ hab hbc => le_trans hbc hab⟩

instance : IsTotal Recommendation hybGE :=
  ⟨fun a b => le_total (b.combined_score.getD 0) (a.combined_score.getD 0)⟩

instance : IsTrans Recommendation hybGE :=
  ⟨fun _ _ _ hab hbc => le_trans hbc hab⟩

theorem mapGet_mapSet_self {κ α : Type} [BEq κ] [LawfulBEq κ]
    (m : List (κ × α)) (k : κ) (v : α) : mapGet (mapSet m k v) k = some v := by
  induction m with
  | nil => simp [mapGet, mapSet]
  | cons hd t ih =>
    obtain ⟨k', v'⟩ := hd
    by_cases hk : k' == k
    · simp [mapSet, hk, mapGet]
    · simp only [mapSet, hk]
      simp only [Bool.false_eq_true, if_false, mapGet, hk]
      exact ih

theorem mapGet_mapSet_ne {κ α : Type} [BEq κ] [LawfulBEq κ]
    (m : List (κ × α)) (k j : κ) (v : α) (h : j ≠ k) :
    mapGet (mapSet m k v) j = mapGet m j := by
  induction m with
  | nil => simp [mapGet, mapSet, beq_iff_eq, Ne.symm h]
  | cons hd t ih =>
    obtain ⟨k', v'⟩ := hd
    by_cases hk : k' == k
    · have hk' : k' = k := by exact beq_iff_eq.mp hk
      subst hk'
      simp [mapSet, mapGet, beq_iff_eq, Ne.symm h]
    · simp only [mapSet, hk, Bool.false_eq_true, if_false, mapGet]
      by_cases hj : k' == j
      · simp [hj]
      · simp [hj, ih]

theorem mem_keys_mapSet {κ α : Type} [BEq κ] [LawfulBEq κ]
    {m : List (κ × α)} {k j : κ} {v : α}
    (h : j ∈ (mapSet m k v).map Prod.fst) : j = k ∨ j ∈ m.map Prod.fst := by
  induction m with
  | nil => simpa [mapSet] using h
  | cons hd t ih =>
    obtain ⟨k', v'⟩ := hd
    by_cases hk : k' == k
    · simp only [mapSet, hk, if_true, List.map_cons, List.mem_cons] at h
      rcases h with h | h
      · exact Or.inl h
      · exact Or.inr (List.mem_cons_of_mem _ h)
    · simp only [mapSet, hk, Bool.false_eq_true, if_false, List.map_cons, List.mem_cons] at h
      rcases h with h | h
      · exact Or.inr (by simp [h])
      · rcases ih h with h' | h'
        · exact Or.inl h'
        · exact Or.inr (List.mem_cons_of_mem _ h')

theorem mapGet_eq_none_of_not_mem {κ α : Type} [BEq κ] [LawfulBEq κ]
    {m : List (κ × α)} {k : κ} (h : k ∉ m.map Prod.fst) : mapGet m k = none := by
  induction m with
  | nil => rfl
  | cons hd t ih =>
    obtain ⟨k', v'⟩ := hd
    simp only [List.map_cons, List.mem_cons, not_or] at h
    have : (k' == k) = false := beq_eq_false_iff_ne.mpr (fun e => h.1 (by simp [e]))
    simp only [mapGet, this, Bool.false_eq_true, if_false]
    exact ih h.2

theorem mem_keys_of_mapGet_some {κ α : Type} [BEq κ] [LawfulBEq κ]
    {m : List (κ × α)} {k : κ} {v : α} (h : mapGet m k = some v) :
    k ∈ m.map Prod.fst := by
  by_contra hc
  rw [mapGet_eq_none_of_not_mem hc] at h
  exact Option.noConfusion h

theorem mapSet_eq_append_of_not_mem {κ α : Type} [BEq κ] [LawfulBEq κ]
    {m : List (κ × α)} {k : κ} (v : α) (h : k ∉ m.map Prod.fst) :
    mapSet m k v = m ++ [(k, v)] := by
  induction m with
  | nil => rfl
  | cons hd t ih =>
    obtain ⟨k', v'⟩ := hd
    simp only [List.map_cons, List.mem_cons, not_or] at h
    have : (k' == k) = false := beq_eq_false_iff_ne.mpr (fun e => h.1 (by simp [e]))
    simp only [mapSet, this, Bool.false_eq_true, if_false, List.cons_append]
    rw [ih h.2]

theorem mapGet_append_of_not_mem_left {κ α : Type} [BEq κ] [LawfulBEq κ]
    {A : List (κ × α)} (B : List (κ × α)) {k : κ} (h : k ∉ A.map Prod.fst) :
    mapGet (A ++ B) k = mapGet B k := by
  induction A with
  | nil => rfl
  | cons hd t ih =>
    obtain ⟨k', v'⟩ := hd
    simp only [List.map_cons, List.mem_cons, not_or] at h
    have : (k' == k) = false := beq_eq_false_iff_ne.mpr (fun e => h.1 (by simp [e]))
    simp only [List.cons_append, mapGet, this, Bool.false_eq_true, if_false]
    exact ih h.2

theorem mapSet_append_of_not_mem_left {κ α : Type} [BEq κ] [LawfulBEq κ]
    {A : List (κ × α)} (B : List (κ × α)) {k : κ} (v : α) (h : k ∉ A.map Prod.fst) :
    mapSet (A ++ B) k v = A ++ mapSet B k v := by
  induction A with
  | nil => rfl
  | cons hd t ih =>
    obtain ⟨k', v'⟩ := hd
    simp only [List.map_cons, List.mem_cons, not_or] at h
    have : (k' == k) = false := beq_eq_false_iff_ne.mpr (fun e => h.1 (by simp [e]))
    simp only [List.cons_append, mapSet, this, Bool.false_eq_true, if_false, List.cons.injEq,
      true_and]
    exact ih h.2

theorem mem_fallback_type {e : Engine} {limit : ℕ} {r : Recommendation}
    (h : r ∈ getFallbackRecommendations e limit) :
    r.recommendation_type = "fallback" := by
  unfold getFallbackRecommendations at h
  obtain ⟨p, -, rfl⟩ := List.mem_map.mp h
  rfl

theorem fallback_pairwise (e : Engine) (limit : ℕ) :
    (getFallbackRecommendations e limit).Pairwise scoreDesc := by
  unfold getFallbackRecommendations
  rw [List.pairwise_map]
  have h1 : (List.insertionSort popGE e.catalog).Pairwise popGE :=
    List.sorted_insertionSort popGE e.catalog
  have h2 := List.Pairwise.sublist (List.take_sublist limit _) h1
  refine h2.imp (fun hab => ?_)
  unfold scoreDesc
  have := popGE_rating hab
  have hc : ((Product.rating _ : ℚ) : ℝ) ≤ ((Product.rating _ : ℚ) : ℝ) := Rat.cast_le.mpr this
  exact div_le_div_of_nonneg_right hc (by norm_num) |>.trans_eq rfl

theorem fallback_length (e : Engine) (limit : ℕ) :
    (getFallbackRecommendations e limit).length ≤ limit := by
  unfold getFallbackRecommendations
  rw [List.length_map, List.length_take]
  exact min_le_left _ _

theorem fetchProducts_ok_scores (e : Engine) :
    ∀ (l : List (ℕ × ℝ)) (out : List Recommendation),
      fetchProducts e l = .ok out →
      out.map (fun r => r.similarity_score) = l.map (fun en => en.2) := by
  intro l
  induction l with
  | nil =>
    intro out h
    unfold fetchProducts at h
    cases h
    rfl
  | cons hd t ih =>
    intro out h
    unfold fetchProducts at h
    rcases hf : e.catalog.find? (fun p => p.product_id == hd.1) with - | p
    · rw [hf] at h
      exact absurd h (by simp)
    · rw [hf] at h
      rcases ht : fetchProducts e t with u | rest
      · rw [ht] at h
        exact absurd h (by simp [Except.map])
      · rw [ht] at h
        simp only [Except.map] at h
        cases h
        simp only [List.map_cons, List.cons.injEq, true_and]
        exact ih rest ht

theorem fetchProducts_ok_mem (e : Engine) :
    ∀ (l : List (ℕ × ℝ)) (out : List Recommendation),
      fetchProducts e l = .ok out → ∀ r ∈ out,
        ∃ en ∈ l, r.product.product_id = en.1 ∧
          r.recommendation_type = "collaborative" := by
  intro l
  induction l with
  | nil =>
    intro out h r hr
    unfold fetchProducts at h
    cases h
    exact absurd hr (List.not_mem_nil r)
  | cons hd t ih =>
    intro out h r hr
    unfold fetchProducts at h
    rcases hf : e.catalog.find? (fun p => p.product_id == hd.1) with - | p
    · rw [hf] at h
      exact absurd h (by simp)
    · rw [hf] at h
      rcases ht : fetchProducts e t with u | rest
      · rw [ht] at h
        exact absurd h (by simp [Except.map])
      · rw [ht] at h
        simp only [Except.map] at h
        cases h
        rcases List.mem_cons.mp hr with rfl | hr'
        · refine ⟨hd, List.mem_cons_self _ _, ?_, rfl⟩
          simpa using List.find?_some hf
        · obtain ⟨en, hen, h1, h2⟩ := ih rest ht r hr'
          exact ⟨en, List.mem_cons_of_mem _ hen, h1, h2⟩

theorem content_sorted_truncated (e : Engine) (uid : String) (pid : Option ℕ) (limit : ℕ) :
    (getContentBasedRecommendations e uid pid limit).Pairwise scoreDesc ∧
      (getContentBasedRecommendations e uid pid limit).length ≤ limit := by
  unfold getContentBasedRecommendations
  rcases hT : contentTarget e uid pid with - | target <;> dsimp only
  · exact ⟨fallback_pairwise _ _, fallback_length _ _⟩
  · rcases hF : mapGet e.productFeatures target.product_id with - | f <;> dsimp only
    · exact ⟨fallback_pairwise _ _, fallback_length _ _⟩
    · constructor
      · rw [List.pairwise_map]
        have h1 := List.sorted_insertionSort simGE
          ((e.catalog.filter (fun p => !(p.product_id == target.product_id))).filterMap
            (fun p =>
              let similarity := calculateProductSimilarity e target.product_id p.product_id
              if 0 < similarity then some (p, similarity) else none))
        have h2 := List.Pairwise.sublist (List.take_sublist limit _) h1
        exact h2.imp (fun hab => Rat.cast_le.mpr hab)
      · rw [List.length_map, List.length_take]
        exact min_le_left _ _

theorem collab_sorted_truncated (e : Engine) (uid : String) (limit : ℕ) :
    (getCollaborativeRecommendations e uid limit).Pairwise scoreDesc ∧
      (getCollaborativeRecommendations e uid limit).length ≤ limit := by
  unfold getCollaborativeRecommendations getCollaborativeRecommendationsE tryCatchE collabCore
  rcases hrow : mapGet e.userItemMatrix uid with - | row <;> dsimp only
  · exact ⟨fallback_pairwise _ _, fallback_length _ _⟩
  · by_cases hemp : row.isEmpty
    · simp only [hemp, if_true]
      exact ⟨fallback_pairwise _ _, fallback_length _ _⟩
    · simp only [hemp, Bool.false_eq_true, if_false]
      by_cases hsu : (findSimilarUsers e uid 10).isEmpty
      · simp only [hsu, if_true]
        exact ⟨fallback_pairwise _ _, fallback_length _ _⟩
      · simp only [hsu, Bool.false_eq_true, if_false]
        rcases hf : fetchProducts e
            ((List.insertionSort collabGE
              (collabScores e row (findSimilarUsers e uid 10))).take limit) with u | out
        · simp only [Except.map]
          exact ⟨fallback_pairwise _ _, fallback_length _ _⟩
        · simp only [Except.map]
          have hp : (List.Pairwise collabGE
              ((List.insertionSort collabGE
                (collabScores e row (findSimilarUsers e uid 10))).take limit)) :=
            List.Pairwise.sublist (List.take_sublist limit _)
              (List.sorted_insertionSort collabGE _)
          have hm : (out.map (fun r => r.similarity_score)).Pairwise
              (fun x y : ℝ => y ≤ x) := by
            rw [fetchProducts_ok_scores e _ out hf]
            exact List.pairwise_map.mpr (hp.imp (fun h => h))
          have hout : out.Pairwise scoreDesc :=
            ((@List.pairwise_map Recommendation ℝ (fun r => r.similarity_score)
              (fun x y => y ≤ x) out).mp hm).imp (fun h => h)
          have hlen : out.length = ((List.insertionSort collabGE
              (collabScores e row (findSimilarUsers e uid 10))).take limit).length := by
            have := congrArg List.length (fetchProducts_ok_scores e _ out hf)
            simpa using this
          constructor
          · exact List.Pairwise.sublist (List.filter_sublist out) hout
          · calc (out.filter (fun item => !(item.product.product_id == 0))).length
                ≤ out.length := List.length_filter_le _ _
              _ ≤ limit := by
                  rw [hlen, List.length_take]
                  exact min_le_left _ _

theorem natToString0 : toString (0:ℕ) = "0" := rfl

theorem natToString1 : toString (1:ℕ) = "1" := rfl

theorem natToString2 : toString (2:ℕ) = "2" := rfl

theorem contentEval_engC9 : getContentBasedRecommendations engC9 "X" (some 1) 10 =
    [{ product := mkProduct 5 "c" "s" 10 4 0, similarity_score := (((3:ℚ)/5 : ℚ) : ℝ),
       recommendation_type := "content_based", combined_score := none },
     { product := mkProduct 3 "c" "s" 10 4 0, similarity_score := (((3:ℚ)/5 : ℚ) : ℝ),
       recommendation_type := "content_based", combined_score := none }] := by
  have h15 : calculateProductSimilarity engC9 1 5 = 3/5 := by
    simp [calculateProductSimilarity, engC9, mkProduct, mkFeatures, mapGet, tfidfScore,
      natToString0, natToString1, natToString2, min_def]
    norm_num
  have h13 : calculateProductSimilarity engC9 1 3 = 3/5 := by
    simp [calculateProductSimilarity, engC9, mkProduct, mkFeatures, mapGet, tfidfScore,
      natToString0, natToString1, natToString2, min_def]
    norm_num
  unfold getContentBasedRecommendations
  rw [show contentTarget engC9 "X" (some 1) = some (mkProduct 1 "c" "s" 10 4 0) from rfl]
  dsimp only [mkProduct]
  rw [show mapGet engC9.productFeatures 1 =
      some (mkFeatures (mkProduct 1 "c" "s" 10 4 0) 0) from rfl]
  dsimp only
  rw [show engC9.catalog.filter (fun p => !(p.product_id == 1)) =
      [mkProduct 5 "c" "s" 10 4 0, mkProduct 3 "c" "s" 10 4 0] from rfl]
  simp only [List.filterMap_cons, List.filterMap_nil, mkProduct]
  norm_num [h15, h13]
  simp [simGE]

/-- C9 counterexample: in the snapshot `engC9` the two non-anchor products
score the same similarity `0.6` against anchor 1, and the ranking returns
them in catalog enumeration order `[5, 3]` — descending item id — not in
the ascending item-id order `[3, 5]` the claim prescribes for ties. -/
theorem c9_ties_follow_enumeration_order :
    (getContentBasedRecommendations engC9 "X" (some 1) 10).map
        (fun r => r.product.product_id) = [5, 3] ∧
    (getContentBasedRecommendations engC9 "X" (some 1) 10).map
        (fun r => r.similarity_score) = [0.6, 0.6] ∧
    (getContentBasedRecommendations engC9 "X" (some 1) 10).map
        (fun r => r.product.product_id) ≠ [3, 5] := by
  rw [contentEval_engC9]
  refine ⟨by simp [mkProduct], ?_, by simp [mkProduct]⟩
  norm_num

/-- C9: both the content ranking and the collaborative ranking always
return a list sorted descending by `similarity_score` and truncated to the
requested limit.  (Ties are kept in enumeration order by the stable sort,
not re-ordered by ascending item id — see the counterexample.) -/
theorem c9_rankings_sorted_and_truncated (e : Engine) (uid : String) (pid : Option ℕ)
    (limit : ℕ) :
    ((getContentBasedRecommendations e uid pid limit).Pairwise scoreDesc ∧
      (getContentBasedRecommendations e uid pid limit).length ≤ limit) ∧
    ((getCollaborativeRecommendations e uid limit).Pairwise scoreDesc ∧
      (getCollaborativeRecommendations e uid limit).length ≤ limit) :=
  ⟨content_sorted_truncated e uid pid limit, collab_sorted_truncated e uid limit⟩

/-- C10: none of the four public operations can propagate an exception:
each caught-operation value is `Except.ok`, and the catch blocks map an
internal failure of the collaborative core to the fallback list and an
internal failure of the update core to the unchanged engine state. -/
theorem c10_public_ops_never_raise (e : Engine) (uid : String) (pid : Option ℕ)
    (productId : ℕ) (interactionType : String) (rating : Option ℚ) (now : ℤ) (limit : ℕ) :
    (∃ v, getContentBasedRecommendationsE e uid pid limit = .ok v) ∧
    (∃ v, getCollaborativeRecommendationsE e uid limit = .ok v) ∧
    (∃ v, getHybridRecommendationsE e uid limit = .ok v) ∧
    (∃ v, updateUserInteractionE e uid productId interactionType rating now = .ok v) ∧
    ((∃ v, collabCore e uid limit = .ok v ∧ getCollaborativeRecommendations e uid limit = v) ∨
      (collabCore e uid limit = .error () ∧
        getCollaborativeRecommendations e uid limit = getFallbackRecommendations e limit)) ∧
    ((∃ e', updateCore e uid productId interactionType rating now = .ok e' ∧
        updateUserInteraction e uid productId interactionType rating now = e') ∨
      (updateCore e uid productId interactionType rating now = .error () ∧
        updateUserInteraction e uid productId interactionType rating now = e)) := by
  refine ⟨⟨_, rfl⟩, ?_, ⟨_, rfl⟩, ?_, ?_, ?_⟩
  · unfold getCollaborativeRecommendationsE tryCatchE
    rcases collabCore e uid limit with u | v
    · exact ⟨_, rfl⟩
    · exact ⟨_, rfl⟩
  · unfold updateUserInteractionE tryCatchE
    rcases updateCore e uid productId interactionType rating now with u | e'
    · exact ⟨_, rfl⟩
    · exact ⟨_, rfl⟩
  · unfold getCollaborativeRecommendations getCollaborativeRecommendationsE tryCatchE
    rcases h : collabCore e uid limit with u | v
    · right
      exact ⟨rfl, rfl⟩
    · left
      exact ⟨v, rfl, rfl⟩
  · unfold updateUserInteraction updateUserInteractionE tryCatchE
    rcases h : updateCore e uid productId interactionType rating now with u | e'
    · right
      exact ⟨rfl, rfl⟩
    · left
      exact ⟨e', rfl, rfl⟩

/-- C1 counterexample: recording an interaction of type `"wishlist"` makes
the internal save fail (mongoose enum validation), but the operation
catches the error and returns normally with the engine state — including
the user-item ledger — unchanged; no `InvalidInteractionTypeError` (which
does not exist in the code base) and no other error reaches the caller. -/
theorem c1_invalid_type_is_swallowed_not_raised :
    updateCore engC1 "A" 1 "wishlist" none 0 = .error () ∧
    updateUserInteractionE engC1 "A" 1 "wishlist" none 0 = .ok engC1 :=
  ⟨rfl, rfl⟩

/-- C1 (amended): for every engine state, an interaction type outside the
fixed four-value set leaves the engine — in particular every
`userItemMatrix` row — unchanged, and the operation completes without
raising: the validation error is caught inside `updateUserInteraction`. -/
theorem c1_invalid_type_rejected_ledger_unchanged (e : Engine) (uid : String)
    (productId : ℕ) (ty : String) (rating : Option ℚ) (now : ℤ)
    (h : interactionTypeOk ty = false) :
    updateUserInteraction e uid productId ty rating now = e ∧
    updateUserInteractionE e uid productId ty rating now = .ok e := by
  have hv : interactionValid ty rating = false := by
    unfold interactionValid
    rw [h, Bool.false_and]
  have hcore : updateCore e uid productId ty rating now = .ok e ∨
      updateCore e uid productId ty rating now = .error () := by
    unfold updateCore
    split
    · exact Or.inl rfl
    · right
      simp [hv]
  unfold updateUserInteraction updateUserInteractionE tryCatchE
  rcases hcore with h' | h' <;> rw [h'] <;> exact ⟨rfl, rfl⟩

theorem c1_invalid_type_rejected_ledger_unchanged_witness :
    updateUserInteraction engC1 "A" 2 "wishlist" none 7 = engC1 ∧
    updateUserInteractionE engC1 "A" 2 "wishlist" none 7 = .ok engC1 :=
  c1_invalid_type_rejected_ledger_unchanged engC1 "A" 2 "wishlist" none 7 (by decide)

/-- C5 counterexample: asking for recommendations similar to the unknown
anchor item 99 does not raise any error (no `UnknownItemError` exists in
the code base): the caught operation returns `Except.ok` with the
popularity fallback list, which here is a non-empty recommendation list. -/
theorem c5_unknown_anchor_no_error :
    getContentBasedRecommendationsE engC1 "X" (some 99) 10 =
      .ok (getFallbackRecommendations engC1 10) ∧
    (getFallbackRecommendations engC1 10).length = 1 :=
  ⟨rfl, rfl⟩

/-- C5 (amended): an anchor item id that is truthy but absent from the
catalog or from the content index makes the item-to-item recommendation
return the popularity fallback list instead of raising an error. -/
theorem c5_unknown_anchor_falls_back (e : Engine) (uid : String) (pid : ℕ) (limit : ℕ)
    (hpid : pid ≠ 0)
    (h : e.catalog.find? (fun p => p.product_id == pid) = none ∨
         mapGet e.productFeatures pid = none) :
    getContentBasedRecommendations e uid (some pid) limit = getFallbackRecommendations e limit ∧
    getContentBasedRecommendationsE e uid (some pid) limit =
      .ok (getFallbackRecommendations e limit) := by
  have hT : contentTarget e uid (some pid) = e.catalog.find? (fun p => p.product_id == pid) := by
    unfold contentTarget
    simp only [Option.getD]
    rw [if_pos hpid]
  have hmain : getContentBasedRecommendations e uid (some pid) limit =
      getFallbackRecommendations e limit := by
    unfold getContentBasedRecommendations
    rcases hf : e.catalog.find? (fun p => p.product_id == pid) with - | target
    · rw [hT, hf]
    · rcases h with h | h
      · rw [hf] at h
        exact absurd h (by simp)
      · rw [hT, hf]
        dsimp only
        have : target.product_id = pid := by simpa using List.find?_some hf
        rw [this, h]
  refine ⟨hmain, ?_⟩
  unfold getContentBasedRecommendationsE tryCatchE
  rw [hmain]

theorem c5_unknown_anchor_falls_back_witness :
    getContentBasedRecommendations engC1 "X" (some 99) 10 =
      getFallbackRecommendations engC1 10 ∧
    getContentBasedRecommendationsE engC1 "X" (some 99) 10 =
      .ok (getFallbackRecommendations engC1 10) :=
  c5_unknown_anchor_falls_back engC1 "X" 99 10 (by decide) (Or.inl (by decide))

theorem naturalIdf_two_one : naturalIdf 2 1 = 1 := by
  unfold naturalIdf
  rw [show ((2:ℕ):ℝ) / (1 + ((1:ℕ):ℝ)) = 1 by norm_num, Real.log_one]
  ring

theorem naturalIdf_three_two : naturalIdf 3 2 = 1 := by
  unfold naturalIdf
  rw [show ((3:ℕ):ℝ) / (1 + ((2:ℕ):ℝ)) = 1 by norm_num, Real.log_one]
  ring

/-- C6 (code bug): `calculateProductSimilarity` is not symmetric.  In the
snapshot `engC6` — products otherwise tied, but product 2's text contains
the token `"0"`, which is also `String(textIndex)` of product 1 — the text
term `this.tfidf.tfidf(idx1, idx2)` picks up that token in one direction
only: similarity(1,2) = 0.6 while similarity(2,1) = 0.2, contradicting the
documented "TF-IDF cosine similarity" (which is symmetric). -/
theorem c6_similarity_asymmetric_eval :
    calculateProductSimilarity engC6 1 2 = 0.6 ∧
    calculateProductSimilarity engC6 2 1 = 0.2 ∧
    calculateProductSimilarity engC6 1 2 ≠ calculateProductSimilarity engC6 2 1 := by
  have h12 : calculateProductSimilarity engC6 1 2 = 3/5 := by
    simp [calculateProductSimilarity, engC6, mkProduct, mkFeatures, mapGet, tfidfScore,
      natToString0, natToString1, min_def]
    norm_num
  have h21 : calculateProductSimilarity engC6 2 1 = 1/5 := by
    simp [calculateProductSimilarity, engC6, mkProduct, mkFeatures, mapGet, tfidfScore,
      natToString0, natToString1, min_def]
    norm_num
  refine ⟨by rw [h12]; norm_num, by rw [h21]; norm_num, by rw [h12, h21]; norm_num⟩

theorem specTextCosine_engC3 : specTextCosine engC3 0 1 = 1 := by
  unfold specTextCosine
  simp [engC3, List.dedup]

/-- C3 (code bug): the text term of `calculateProductSimilarity` is not
the cosine similarity of the two TF-IDF vectors.  In the snapshot `engC3`,
products 1 and 2 have identical text, so the specified cosine is `1` and
the specified similarity is `0.4 * 1 + 0 + 0.1 + 0.1 = 0.6`; the code's
`this.tfidf.tfidf(0, 1)` instead looks up the token `"0"` (the stringified
document index) in document 1, finds nothing, and yields a text term of
`0`, so the code returns `0.2`. -/
theorem c3_text_term_not_cosine_eval :
    calculateProductSimilarity engC3 1 2 = 0.2 ∧
    specSimilarity engC3 1 2 = 0.6 ∧
    ((calculateProductSimilarity engC3 1 2 : ℚ) : ℝ) ≠ specSimilarity engC3 1 2 := by
  have hcode : calculateProductSimilarity engC3 1 2 = 1/5 := by
    simp [calculateProductSimilarity, engC3, mkProduct, mkFeatures, mapGet, tfidfScore,
      natToString0, natToString1, natToString2, min_def]
    norm_num
  have hspec : specSimilarity engC3 1 2 = 3/5 := by
    unfold specSimilarity
    rw [show mapGet engC3.productFeatures 1 =
        some (mkFeatures (mkProduct 1 "a" "s" 10 4 0) 0) from rfl]
    rw [show mapGet engC3.productFeatures 2 =
        some (mkFeatures (mkProduct 2 "b" "t" 10 4 0) 1) from rfl]
    dsimp only [mkFeatures, mkProduct]
    rw [specTextCosine_engC3]
    simp only [show ¬("a" : String) = "b" from by decide, if_false, Bool.false_eq_true]
    norm_num [max_def, min_def]
  refine ⟨by rw [hcode]; norm_num, by rw [hspec]; norm_num, by rw [hcode, hspec]; norm_num⟩

theorem calcUserSim_eval : calculateUserSimilarity [(1,10)] [(1,3),(2,10)] = 1 := by
  unfold calculateUserSimilarity
  simp [mapGet]

theorem findSimilarUsers_engC7 : findSimilarUsers engC7 "A" 10 = [("B", 1)] := by
  unfold findSimilarUsers
  rw [show mapGet engC7.userItemMatrix "A" = some [(1,10)] from rfl]
  dsimp only
  rw [show engC7.userItemMatrix = [("A", [(1, 10)]), ("B", [(1, 3), (2, 10)])] from rfl]
  simp only [List.foldl_cons, List.foldl_nil]
  norm_num [calcUserSim_eval]

theorem collabScores_engC7 : collabScores engC7 [(1,10)] [("B",1)] =
    [(2, 0 + ((10:ℚ):ℝ) * 1)] := by
  unfold collabScores
  simp only [List.foldl_cons, List.foldl_nil]
  rw [show mapGet engC7.userItemMatrix "B" = some [(1,3),(2,10)] from rfl]
  dsimp only
  simp [mapGet, mapSet]

theorem collabEval_engC7 : getCollaborativeRecommendations engC7 "A" 10 =
    [{ product := mkProduct 2 "c" "s" 12 5 0, similarity_score := 10,
       recommendation_type := "collaborative", combined_score := none }] := by
  unfold getCollaborativeRecommendations getCollaborativeRecommendationsE tryCatchE collabCore
  rw [show mapGet engC7.userItemMatrix "A" = some [(1,10)] from rfl]
  dsimp only
  rw [findSimilarUsers_engC7]
  simp only [List.isEmpty_cons, Bool.false_eq_true, if_false]
  rw [collabScores_engC7]
  simp only [List.insertionSort, List.orderedInsert, List.take]
  unfold fetchProducts
  rw [show engC7.catalog.find? (fun p => p.product_id == (2:ℕ)) =
      some (mkProduct 2 "c" "s" 12 5 0) from rfl]
  dsimp only
  unfold fetchProducts
  simp [Except.map, mkProduct]

/-- C7: in the spec's scenario — A purchased item 1 (weight 10), B liked
item 1 (weight 3) and purchased item 2 (weight 10) — `findSimilarUsers(A)`
returns exactly B with cosine similarity exactly 1 (single common item),
and the collaborative recommendation for A is exactly item 2 with
aggregate score `10 * 1.0 = 10`. -/
theorem c7_scenario_eval :
    findSimilarUsers engC7 "A" 10 = [("B", 1)] ∧
    getCollaborativeRecommendations engC7 "A" 10 =
      [{ product := mkProduct 2 "c" "s" 12 5 0, similarity_score := 10,
         recommendation_type := "collaborative", combined_score := none }] :=
  ⟨findSimilarUsers_engC7, collabEval_engC7⟩

theorem collabScores_inner_keys (row orow : List (ℕ × ℚ)) (sim : ℝ)
    (m : List (ℕ × ℝ))
    (H : ∀ pid ∈ m.map Prod.fst, mapGet row pid = none) :
    ∀ pid ∈ (orow.foldl (fun recommendations entry =>
        if (mapGet row entry.1).isSome then recommendations
        else mapSet recommendations entry.1
          (((mapGet recommendations entry.1).getD 0) + (entry.2 : ℝ) * sim)) m).map Prod.fst,
      mapGet row pid = none := by
  induction orow generalizing m with
  | nil => exact H
  | cons hd t ih =>
    intro pid hpid
    simp only [List.foldl_cons] at hpid
    by_cases hh : (mapGet row hd.1).isSome = true
    · rw [if_pos hh] at hpid
      exact ih m H pid hpid
    · rw [if_neg hh] at hpid
      refine ih _ ?_ pid hpid
      intro q hq
      rcases mem_keys_mapSet hq with rfl | hq'
      · exact Option.not_isSome_iff_eq_none.mp hh
      · exact H q hq'

theorem collabScores_keys (e : Engine) (row : List (ℕ × ℚ)) (sims : List (String × ℝ)) :
    ∀ pid ∈ (collabScores e row sims).map Prod.fst, mapGet row pid = none := by
  suffices h : ∀ (l : List (String × ℝ)) (m : List (ℕ × ℝ)),
      (∀ pid ∈ m.map Prod.fst, mapGet row pid = none) →
      ∀ pid ∈ (l.foldl (fun recommendations su =>
          match mapGet e.userItemMatrix su.1 with
          | none => recommendations
          | some similarUserInteractions =>
            similarUserInteractions.foldl (fun recommendations entry =>
              if (mapGet row entry.1).isSome then recommendations
              else mapSet recommendations entry.1
                (((mapGet recommendations entry.1).getD 0) + (entry.2 : ℝ) * su.2))
              recommendations) m).map Prod.fst, mapGet row pid = none by
    intro pid hp
    exact h sims [] (by simp) pid hp
  intro l
  induction l with
  | nil => exact fun m H => H
  | cons hd t ih =>
    intro m H
    simp only [List.foldl_cons]
    rcases hm : mapGet e.userItemMatrix hd.1 with - | orow
    · exact ih m H
    · exact ih _ (collabScores_inner_keys row orow hd.2 m H)

theorem collab_ne_fallback : ("collaborative" : String) ≠ "fallback" := by decide

/-- C8 (amended): every record the collaborative scoring path itself
produces (tagged `collaborative`) is for an item the target user has no
ledger entry for at all — in particular no non-zero entry; only the
fallback degradation paths (no row, empty row, no similar user, failed
product resolution) can return already-interacted items. -/
theorem c8_collaborative_tagged_excludes_interacted (e : Engine) (uid : String)
    (limit : ℕ) (row : List (ℕ × ℚ)) (r : Recommendation)
    (hrow : mapGet e.userItemMatrix uid = some row)
    (hmem : r ∈ getCollaborativeRecommendations e uid limit)
    (htag : r.recommendation_type = "collaborative") :
    mapGet row r.product.product_id = none := by
  unfold getCollaborativeRecommendations getCollaborativeRecommendationsE tryCatchE
    collabCore at hmem
  rw [hrow] at hmem
  dsimp only at hmem
  by_cases hemp : row.isEmpty = true
  · rw [if_pos hemp] at hmem
    dsimp only at hmem
    exact absurd (htag ▸ mem_fallback_type hmem) collab_ne_fallback
  · rw [if_neg hemp] at hmem
    by_cases hsu : (findSimilarUsers e uid 10).isEmpty = true
    · rw [if_pos hsu] at hmem
      dsimp only at hmem
      exact absurd (htag ▸ mem_fallback_type hmem) collab_ne_fallback
    · rw [if_neg hsu] at hmem
      rcases hf : fetchProducts e
          ((List.insertionSort collabGE
            (collabScores e row (findSimilarUsers e uid 10))).take limit) with u | out
      · rw [hf] at hmem
        simp only [Except.map] at hmem
        exact absurd (htag ▸ mem_fallback_type hmem) collab_ne_fallback
      · rw [hf] at hmem
        simp only [Except.map] at hmem
        have hout : r ∈ out := List.mem_of_mem_filter hmem
        obtain ⟨en, hen, hid, -⟩ := fetchProducts_ok_mem e _ out hf r hout
        have hen' : en ∈ collabScores e row (findSimilarUsers e uid 10) :=
          (List.perm_insertionSort collabGE _).mem_iff.mp
            (List.take_subset limit _ hen)
        have hkey : en.1 ∈ (collabScores e row (findSimilarUsers e uid 10)).map Prod.fst :=
          List.mem_map_of_mem Prod.fst hen'
        rw [hid]
        exact collabScores_keys e row (findSimilarUsers e uid 10) en.1 hkey

theorem findSimilarUsers_engC8 : findSimilarUsers engC8 "A" 10 = [] := by
  unfold findSimilarUsers
  rw [show mapGet engC8.userItemMatrix "A" = some [(1,10)] from rfl]
  dsimp only
  rw [show engC8.userItemMatrix = [("A", [(1, 10)])] from rfl]
  simp

/-- C8 counterexample: in the snapshot `engC8` the single user A purchased
the only (hence top) product, and no other user exists; the collaborative
operation degrades to the fallback and returns exactly that product —
an item with ledger weight 10 in A's own row — contradicting the claim
that no returned item has a non-zero entry in the user's vector. -/
theorem c8_fallback_path_returns_interacted_item :
    (getCollaborativeRecommendations engC8 "A" 10).map (fun r => r.product.product_id) = [1] ∧
    mapGet ((mapGet engC8.userItemMatrix "A").getD []) 1 = some 10 ∧
    (getCollaborativeRecommendations engC8 "A" 10).map (fun r => r.recommendation_type) =
      ["fallback"] := by
  have heval : getCollaborativeRecommendations engC8 "A" 10 =
      getFallbackRecommendations engC8 10 := by
    unfold getCollaborativeRecommendations getCollaborativeRecommendationsE tryCatchE collabCore
    rw [show mapGet engC8.userItemMatrix "A" = some [(1,10)] from rfl]
    dsimp only
    rw [findSimilarUsers_engC8]
    simp
  rw [heval]
  refine ⟨?_, rfl, ?_⟩ <;> simp [getFallbackRecommendations, engC8, mkProduct]

theorem c8_collaborative_tagged_excludes_interacted_witness :
    mapGet [((1:ℕ), (10:ℚ))] 2 = none :=
  c8_collaborative_tagged_excludes_interacted engC7 "A" 10 [(1,10)]
    { product := mkProduct 2 "c" "s" 12 5 0, similarity_score := 10,
      recommendation_type := "collaborative", combined_score := none }
    rfl (by rw [collabEval_engC7]; exact List.mem_singleton.mpr rfl) rfl

theorem hybridContentFold_get_aux (l : List Recommendation) :
    ∀ (m : List (ℕ × Recommendation)),
    (l.map (fun r => r.product.product_id)).Nodup →
    ∀ pid : ℕ,
    mapGet (l.foldl (fun m rec =>
      mapSet m rec.product.product_id
        { rec with
          combined_score := some (rec.similarity_score * 0.6)
          recommendation_type := "hybrid" }) m) pid =
      (match l.find? (fun r => r.product.product_id == pid) with
       | some c => some (contentize c)
       | none => mapGet m pid) := by
  induction l with
  | nil => intro m h pid; rfl
  | cons x t ih =>
    intro m h pid
    simp only [List.foldl_cons]
    have hnd : (t.map (fun r => r.product.product_id)).Nodup := (List.nodup_cons.mp h).2
    have hnx : x.product.product_id ∉ t.map (fun r => r.product.product_id) :=
      (List.nodup_cons.mp h).1
    rw [ih _ hnd pid]
    by_cases hpx : (x.product.product_id == pid) = true
    · have hpid : x.product.product_id = pid := beq_iff_eq.mp hpx
      have ht : t.find? (fun r => r.product.product_id == pid) = none := by
        rw [List.find?_eq_none]
        intro r hr hbr
        exact hnx ((hpid.trans (beq_iff_eq.mp hbr).symm) ▸ List.mem_map_of_mem _ hr)
      rw [ht, @List.find?_cons_of_pos Recommendation (fun r => r.product.product_id == pid) x t hpx, ← hpid]
      exact mapGet_mapSet_self m _ _
    · rw [@List.find?_cons_of_neg Recommendation (fun r => r.product.product_id == pid) x t hpx]
      rw [mapGet_mapSet_ne m x.product.product_id pid _
        (fun hc => hpx (beq_iff_eq.mpr hc.symm))]

theorem hybridCollabFold_get_aux (l : List Recommendation) :
    ∀ (m : List (ℕ × Recommendation)),
    (l.map (fun r => r.product.product_id)).Nodup →
    ∀ pid : ℕ,
    mapGet (l.foldl (fun m rec =>
      match mapGet m rec.product.product_id with
      | some existing =>
        mapSet m rec.product.product_id
          { existing with
            combined_score :=
              some ((existing.combined_score.getD 0) + rec.similarity_score * 0.4) }
      | none =>
        mapSet m rec.product.product_id
          { rec with
            combined_score := some (rec.similarity_score * 0.4)
            recommendation_type := "hybrid" }) m) pid =
      (match l.find? (fun r => r.product.product_id == pid) with
       | some w =>
         some (match mapGet m pid with
           | some existing =>
             { existing with
               combined_score :=
                 some ((existing.combined_score.getD 0) + w.similarity_score * 0.4) }
           | none =>
             { w with
               combined_score := some (w.similarity_score * 0.4)
               recommendation_type := "hybrid" })
       | none => mapGet m pid) := by
  induction l with
  | nil => intro m h pid; rfl
  | cons x t ih =>
    intro m h pid
    simp only [List.foldl_cons]
    have hnd : (t.map (fun r => r.product.product_id)).Nodup := (List.nodup_cons.mp h).2
    have hnx : x.product.product_id ∉ t.map (fun r => r.product.product_id) :=
      (List.nodup_cons.mp h).1
    rw [ih _ hnd pid]
    by_cases hpx : (x.product.product_id == pid) = true
    · have hpid : x.product.product_id = pid := beq_iff_eq.mp hpx
      have ht : t.find? (fun r => r.product.product_id == pid) = none := by
        rw [List.find?_eq_none]
        intro r hr hbr
        exact hnx ((hpid.trans (beq_iff_eq.mp hbr).symm) ▸ List.mem_map_of_mem _ hr)
      rw [ht, @List.find?_cons_of_pos Recommendation (fun r => r.product.product_id == pid) x t hpx]
      rcases hg : mapGet m x.product.product_id with - | existing
      · rw [← hpid, hg]
        dsimp only
        rw [mapGet_mapSet_self m _ _]
      · rw [← hpid, hg]
        dsimp only
        rw [mapGet_mapSet_self m _ _]
    · have hne : pid ≠ x.product.product_id := fun hc => hpx (beq_iff_eq.mpr hc.symm)
      rw [@List.find?_cons_of_neg Recommendation (fun r => r.product.product_id == pid) x t hpx]
      rcases hg : mapGet m x.product.product_id with - | existing <;>
        dsimp only <;>
        rw [mapGet_mapSet_ne m x.product.product_id pid _ hne]

/-- C4: in the hybrid blend map, an item found in both input lists gets
`combined_score = contentScore * 0.6 + collabScore * 0.4`; an item found
in exactly one list gets that single score scaled by its list's weight
(`0.6` for a content entry, `0.4` for a collaborative entry).  The input
lists are keyed uniquely (they come from deduplicated maps / distinct
products). -/
theorem c4_hybrid_blend_scores (content collab : List Recommendation)
    (h1 : (content.map (fun r => r.product.product_id)).Nodup)
    (h2 : (collab.map (fun r => r.product.product_id)).Nodup) (pid : ℕ) :
    (mapGet (hybridMerge content collab) pid).bind (fun r => r.combined_score) =
      (match content.find? (fun r => r.product.product_id == pid),
            collab.find? (fun r => r.product.product_id == pid) with
      | some c, some w => some (c.similarity_score * 0.6 + w.similarity_score * 0.4)
      | some c, none => some (c.similarity_score * 0.6)
      | none, some w => some (w.similarity_score * 0.4)
      | none, none => none) := by
  have hmain : mapGet (hybridMerge content collab) pid =
      (match collab.find? (fun r => r.product.product_id == pid) with
       | some w =>
         some (match mapGet (content.foldl (fun m rec =>
             mapSet m rec.product.product_id
               { rec with
                 combined_score := some (rec.similarity_score * 0.6)
                 recommendation_type := "hybrid" }) []) pid with
           | some existing =>
             { existing with
               combined_score :=
                 some ((existing.combined_score.getD 0) + w.similarity_score * 0.4) }
           | none =>
             { w with
               combined_score := some (w.similarity_score * 0.4)
               recommendation_type := "hybrid" })
       | none => mapGet (content.foldl (fun m rec =>
           mapSet m rec.product.product_id
             { rec with
               combined_score := some (rec.similarity_score * 0.6)
               recommendation_type := "hybrid" }) []) pid) :=
    hybridCollabFold_get_aux collab _ h2 pid
  rw [hybridContentFold_get_aux content [] h1 pid] at hmain
  rw [hmain]
  rcases hc : content.find? (fun r => r.product.product_id == pid) with - | c <;>
    rcases hw : collab.find? (fun r => r.product.product_id == pid) with - | w <;>
    simp [hc, hw, contentize, mapGet]

theorem c4_hybrid_blend_scores_witness :
    (mapGet (hybridMerge
        [{ product := mkProduct 1 "c" "s" 10 4 0, similarity_score := (1:ℝ),
           recommendation_type := "content_based", combined_score := none }]
        [{ product := mkProduct 1 "c" "s" 10 4 0, similarity_score := (0.5:ℝ),
           recommendation_type := "collaborative", combined_score := none },
         { product := mkProduct 2 "c" "s" 10 4 0, similarity_score := (2:ℝ),
           recommendation_type := "collaborative", combined_score := none }]) 1).bind
      (fun r => r.combined_score) = some ((1:ℝ) * 0.6 + (0.5:ℝ) * 0.4) := by
  rw [c4_hybrid_blend_scores _ _ (by decide) (by decide) 1]
  rfl

theorem hybridContentFold_list (l : List Recommendation) :
    ∀ (acc : List (ℕ × Recommendation)),
    (∀ r ∈ l, r.product.product_id ∉ acc.map Prod.fst) →
    (l.map (fun r => r.product.product_id)).Nodup →
    l.foldl (fun m rec =>
      mapSet m rec.product.product_id
        { rec with
          combined_score := some (rec.similarity_score * 0.6)
          recommendation_type := "hybrid" }) acc =
      acc ++ l.map (fun r => (r.product.product_id, contentize r)) := by
  induction l with
  | nil => intro acc _ _; simp
  | cons x t ih =>
    intro acc hdisj hnd
    simp only [List.foldl_cons]
    have hd2 : ∀ r ∈ t, r.product.product_id ∉
        (acc ++ [(x.product.product_id, contentize x)]).map Prod.fst := by
      intro r hr hmem
      rw [List.map_append] at hmem
      rcases List.mem_append.mp hmem with hmem | hmem
      · exact hdisj r (List.mem_cons_of_mem _ hr) hmem
      · have hrx : r.product.product_id = x.product.product_id := by simpa using hmem
        exact (List.nodup_cons.mp hnd).1 (List.mem_map.mpr ⟨r, hr, hrx⟩)
    rw [mapSet_eq_append_of_not_mem _ (hdisj x (List.mem_cons_self x t))]
    refine Eq.trans (ih _ hd2 (List.nodup_cons.mp hnd).2) ?_
    simp [contentize]

theorem hybridCollabFold_self (l : List Recommendation) :
    ∀ (A : List (ℕ × Recommendation)),
    (∀ r ∈ l, r.product.product_id ∉ A.map Prod.fst) →
    (l.map (fun r => r.product.product_id)).Nodup →
    l.foldl (fun m rec =>
      match mapGet m rec.product.product_id with
      | some existing =>
        mapSet m rec.product.product_id
          { existing with
            combined_score :=
              some ((existing.combined_score.getD 0) + rec.similarity_score * 0.4) }
      | none =>
        mapSet m rec.product.product_id
          { rec with
            combined_score := some (rec.similarity_score * 0.4)
            recommendation_type := "hybrid" })
      (A ++ l.map (fun r => (r.product.product_id, contentize r))) =
      A ++ l.map (fun r => (r.product.product_id, hybridize r)) := by
  induction l with
  | nil => intro A _ _; simp
  | cons x t ih =>
    intro A hdisj hnd
    simp only [List.foldl_cons, List.map_cons]
    have hget : mapGet (A ++ (x.product.product_id, contentize x) ::
        t.map (fun r => (r.product.product_id, contentize r))) x.product.product_id =
        some (contentize x) := by
      rw [mapGet_append_of_not_mem_left _ (hdisj x (List.mem_cons_self x t))]
      simp [mapGet]
    rw [hget]
    dsimp only
    rw [mapSet_append_of_not_mem_left _ _ (hdisj x (List.mem_cons_self x t))]
    have hset : mapSet ((x.product.product_id, contentize x) ::
        t.map (fun r => (r.product.product_id, contentize r))) x.product.product_id
        { contentize x with
          combined_score :=
            some (((contentize x).combined_score.getD 0) + x.similarity_score * 0.4) } =
        (x.product.product_id, hybridize x) ::
          t.map (fun r => (r.product.product_id, contentize r)) := by
      simp [mapSet, contentize, hybridize]
    rw [hset]
    have hd2 : ∀ r ∈ t, r.product.product_id ∉
        (A ++ [(x.product.product_id, hybridize x)]).map Prod.fst := by
      intro r hr hmem
      rw [List.map_append] at hmem
      rcases List.mem_append.mp hmem with hmem | hmem
      · exact hdisj r (List.mem_cons_of_mem _ hr) hmem
      · have hrx : r.product.product_id = x.product.product_id := by simpa using hmem
        exact (List.nodup_cons.mp hnd).1 (List.mem_map.mpr ⟨r, hr, hrx⟩)
    have hassoc : A ++ (x.product.product_id, hybridize x) ::
        t.map (fun r => (r.product.product_id, contentize r)) =
        (A ++ [(x.product.product_id, hybridize x)]) ++
          t.map (fun r => (r.product.product_id, contentize r)) := by
      simp
    rw [hassoc, ih _ hd2 (List.nodup_cons.mp hnd).2]
    simp

theorem hybridMerge_self (L : List Recommendation)
    (h : (L.map (fun r => r.product.product_id)).Nodup) :
    hybridMerge L L = L.map (fun r => (r.product.product_id, hybridize r)) := by
  unfold hybridMerge
  rw [hybridContentFold_list L [] (by simp) h]
  simpa using hybridCollabFold_self L [] (by simp) h

theorem fallback_length_eq (e : Engine) (limit : ℕ) :
    (getFallbackRecommendations e limit).length = min limit e.catalog.length := by
  unfold getFallbackRecommendations
  rw [List.length_map, List.length_take, (List.perm_insertionSort popGE e.catalog).length_eq]

theorem hybridColdUser (e : Engine) (u : String) (user : DBUser)
    (hu : e.users.find? (fun x => x.id == u) = some user)
    (hempty : user.interactions = [])
    (hrow : mapGet e.userItemMatrix u = some [] ∨ mapGet e.userItemMatrix u = none)
    (hnodup : (e.catalog.map (fun p => p.product_id)).Nodup) :
    getHybridRecommendations e u 5 = (getFallbackRecommendations e 4).map hybridize := by
  have htarget : contentTarget e u none = none := by
    unfold contentTarget
    rw [if_neg (by decide)]
    rw [hu]
    dsimp only
    rw [hempty]
    rfl
  have hcontent : getContentBasedRecommendations e u none 4 = getFallbackRecommendations e 4 := by
    unfold getContentBasedRecommendations
    rw [htarget]
  have hcollab : getCollaborativeRecommendations e u 4 = getFallbackRecommendations e 4 := by
    unfold getCollaborativeRecommendations getCollaborativeRecommendationsE tryCatchE collabCore
    rcases hrow with h | h <;> (rw [h]; try rfl)
  have hkeys : ((getFallbackRecommendations e 4).map (fun r => r.product.product_id)).Nodup := by
    have h1 : ((List.insertionSort popGE e.catalog).map (fun p => p.product_id)).Nodup :=
      ((List.perm_insertionSort popGE e.catalog).map (fun p => p.product_id)).nodup_iff.mpr hnodup
    have h2 : (((List.insertionSort popGE e.catalog).take 4).map
        (fun p => p.product_id)).Nodup := by
      rw [List.map_take]
      exact List.Nodup.sublist (List.take_sublist _ _) h1
    unfold getFallbackRecommendations
    rw [List.map_map]
    exact h2
  have hsorted : ((getFallbackRecommendations e 4).map hybridize).Pairwise hybGE := by
    refine List.pairwise_map.mpr ((fallback_pairwise e 4).imp ?_)
    intro a b hab
    unfold scoreDesc at hab
    unfold hybGE hybridize
    dsimp only
    simp only [Option.getD_some]
    linarith
  unfold getHybridRecommendations
  rw [show ((7 * 5 + 9) / 10 : ℕ) = 4 from by norm_num]
  dsimp only
  rw [hcontent, hcollab, hybridMerge_self _ hkeys, List.map_map]
  have hcomp : (Prod.snd ∘ fun r : Recommendation => (r.product.product_id, hybridize r)) =
      hybridize := rfl
  rw [hcomp]
  rw [List.Sorted.insertionSort_eq hsorted]
  refine List.take_of_length_le ?_
  rw [List.length_map]
  exact le_trans (fallback_length e 4) (by norm_num)

/-- C2 counterexample: in the snapshot `engC2` (five products, user A with
zero interactions), `getHybridRecommendations("A", 5)` does not return
`getFallbackRecommendations(5)`: it returns only 4 records (each source is
queried with `Math.ceil(5 * 0.7) = 4`) and every record is re-tagged
`hybrid`, while `fallback(5)` has 5 records tagged `fallback`. -/
theorem c2_cold_user_hybrid_differs_from_fallback :
    getHybridRecommendations engC2 "A" 5 ≠ getFallbackRecommendations engC2 5 ∧
    (getHybridRecommendations engC2 "A" 5).length = 4 ∧
    (getFallbackRecommendations engC2 5).length = 5 ∧
    (getHybridRecommendations engC2 "A" 5).map (fun r => r.recommendation_type) =
      ["hybrid", "hybrid", "hybrid", "hybrid"] := by
  have he := hybridColdUser engC2 "A" { id := "A", interactions := [] } rfl rfl (Or.inl rfl)
    (by decide)
  have hsort : List.insertionSort popGE engC2.catalog = engC2.catalog :=
    List.Sorted.insertionSort_eq (by decide)
  have hlen4 : (getHybridRecommendations engC2 "A" 5).length = 4 := by
    rw [he, List.length_map, fallback_length_eq]
    rfl
  have hlen5 : (getFallbackRecommendations engC2 5).length = 5 := by
    rw [fallback_length_eq]
    rfl
  refine ⟨?_, hlen4, hlen5, ?_⟩
  · intro hcontra
    rw [hcontra, hlen5] at hlen4
    exact absurd hlen4 (by norm_num)
  · rw [he]
    unfold getFallbackRecommendations
    rw [hsort]
    rfl

/-- C2 (amended): for a user that exists with zero recorded interactions
(and hence an empty or absent matrix row), the hybrid mode with limit 5
returns the popularity fallback list of length `Math.ceil(5 * 0.7) = 4`
(not 5), in fallback order, with every record re-tagged `hybrid` and given
`combined_score = similarity_score * 0.6 + similarity_score * 0.4`;
it is not the `fallback(5)` list tagged `fallback`. -/
theorem c2_cold_user_hybrid_is_retagged_fallback (e : Engine) (u : String) (user : DBUser)
    (hu : e.users.find? (fun x => x.id == u) = some user)
    (hempty : user.interactions = [])
    (hrow : mapGet e.userItemMatrix u = some [] ∨ mapGet e.userItemMatrix u = none)
    (hnodup : (e.catalog.map (fun p => p.product_id)).Nodup) :
    getHybridRecommendations e u 5 = (getFallbackRecommendations e 4).map hybridize :=
  hybridColdUser e u user hu hempty hrow hnodup

theorem c2_cold_user_hybrid_is_retagged_fallback_witness :
    getHybridRecommendations engC2 "A" 5 =
      (getFallbackRecommendations engC2 4).map hybridize :=
  c2_cold_user_hybrid_is_retagged_fallback engC2 "A" { id := "A", interactions := [] }
    rfl rfl (Or.inl rfl) (by decide)
